import Mathlib

/-!
Verification of the makeMoney distributed media pipeline core.

Shallow embedding of:
  - `video_generator/video_overlay/progressive_overlay.py` (progressive overlay engine)
  - `voice_cloning/src/database_integration.py` (database gateway and voice worker)
  - `voice_cloning/src/queue_consumer.py` (queue consumer shell)
  - `video_generator/whatsapp_gen/node_service_client.py` (screenshot client)

Python semantics notes used throughout:
  - `int(x)` truncates toward zero; modelled by `pyInt` on rationals.
  - `range(n)` for a non-positive bound is empty; modelled via `Int.toNat`.
  - `//` is floor division; modelled by `Int.fdiv`.
-/

namespace MakeMoney

/-- Python `int(x)` for a rational: truncation toward zero
(`Int.tdiv` is truncating division). -/
def pyInt (q : ℚ) : Int := q.num.tdiv q.den

/-- Number of loop iterations of Python `range(int(x))`: zero when negative. -/
def pyNat (q : ℚ) : Nat := (pyInt q).toNat

/-- A message bounding box as returned by the screenshot service
(`MessageCoordinate` in the data model). -/
structure Coord where
  y : Int
  height : Int
  width : Int
  index : Nat
  fromUser : String
  text : String
deriving DecidableEq, Repr, Inhabited

/-! ## Progressive overlay engine (`progressive_overlay.py`) -/

/-- Contiguous windows of size `k + 1` over a list, with the number of
remaining loop iterations made explicit as `fuel` (each iteration consumes
at least one element, so `l.length` iterations always suffice). -/
def chunkFuel (k : Nat) : Nat → List α → List (List α)
  | _, [] => []
  | 0, x :: xs => [x :: xs]
  | fuel + 1, x :: xs => (x :: xs.take k) :: chunkFuel k fuel (xs.drop k)

/-- Contiguous windows of size `k + 1` over a list; mirrors
`for group_start in range(0, total, messages_per_group)` with window
`[group_start, min(group_start + messages_per_group, total))`. -/
def chunkList (k : Nat) (l : List α) : List (List α) :=
  chunkFuel k l.length l

/-- The message-index groups of `create_progressive_frames`:
contiguous windows of `messages_per_group` indices over `[0, total)`.
The source forbids `messages_per_group = 0` (Python `range` step must be
non-zero); `messages_per_group - 1 + 1 = 1` is the degenerate reading. -/
def messageGroups (messages_per_group total : Nat) : List (List Nat) :=
  chunkList (messages_per_group - 1) (List.range total)

/-- One element of the emitted frame sequence (`FramePlan` in the spec):
either an empty buffer frame or a frame revealing a prefix of a group. -/
inductive FrameKind where
  | empty : FrameKind
  | reveal (group : List Nat) (shown : Nat) : FrameKind
deriving DecidableEq, Repr

/-- Frames for one message group: for the `i`-th message `m` of the group,
`int(durations[m] * fps)` reveal frames, then — except after the last
message of the group — `int(pause * fps)` pause frames showing the same
prefix. `i` is the position already consumed (so `i + 1` messages shown). -/
def groupFramesAux (fps pause : ℚ) (durations : List ℚ) (g : List Nat) (i : Nat) :
    List Nat → List FrameKind
  | [] => []
  | [m] => List.replicate (pyNat (durations.getD m 0 * fps)) (FrameKind.reveal g (i + 1))
  | m :: m2 :: rest =>
      List.replicate (pyNat (durations.getD m 0 * fps)) (FrameKind.reveal g (i + 1))
        ++ List.replicate (pyNat (pause * fps)) (FrameKind.reveal g (i + 1))
        ++ groupFramesAux fps pause durations g (i + 1) (m2 :: rest)

/-- All frames of one group (`for i, msg_idx in enumerate(group_messages)`). -/
def groupFrames (fps pause : ℚ) (durations : List ℚ) (g : List Nat) : List FrameKind :=
  groupFramesAux fps pause durations g 0 g

/-- `ProgressiveMessageOverlay.create_progressive_frames`: the length check,
then start-buffer frames, per-group reveal/pause frames, end-buffer frames.
Returns the emitted frame sequence or the raised `ValueError` message. -/
def create_progressive_frames (coords : List Coord) (durations : List ℚ)
    (fps startB endB pause : ℚ) (messages_per_group : Nat) :
    Except String (List FrameKind) :=
  if durations.length ≠ coords.length then
    .error "Audio durations must match message coordinates"
  else
    .ok (List.replicate (pyNat (startB * fps)) FrameKind.empty
      ++ ((messageGroups messages_per_group coords.length).map
            (groupFrames fps pause durations)).flatten
      ++ List.replicate (pyNat (endB * fps)) FrameKind.empty)

/-- The frame file written for frame number `n`. -/
def framePath (n : Nat) : String := "frame_" ++ toString n ++ ".png"

/-- `create_progressive_frames` with the output directory made explicit:
`fs` is the list of files in the directory; every appended frame writes its
file, and the initial length check precedes any write. -/
def run_create_progressive_frames (fs : List String) (coords : List Coord)
    (durations : List ℚ) (fps startB endB pause : ℚ) (messages_per_group : Nat) :
    Except String (List FrameKind) × List String :=
  match create_progressive_frames coords durations fps startB endB pause messages_per_group with
  | .error e => (.error e, fs)
  | .ok frames => (.ok frames, fs ++ (List.range frames.length).map framePath)

/-- `ProgressiveMessageOverlay._calculate_bottom_boundary`. -/
def calculate_bottom_boundary (coords : List Coord) (croppedHeight : Int)
    (last_msg_idx : Nat) (messages_to_show : List Nat) : Int :=
  let last_coord := coords.getD last_msg_idx default
  if messages_to_show.getLast? = some last_msg_idx then
    min croppedHeight (last_coord.y + last_coord.height + 15)
  else if last_msg_idx + 1 < coords.length then
    let next_coord := coords.getD (last_msg_idx + 1) default
    let current_bottom := last_coord.y + last_coord.height
    let distance := next_coord.y - current_bottom
    min croppedHeight (current_bottom + Int.fdiv distance 2)
  else
    min croppedHeight (last_coord.y + last_coord.height + 15)

/-- `ProgressiveMessageOverlay._calculate_top_boundary`. -/
def calculate_top_boundary (coords : List Coord)
    (first_msg_idx : Nat) (messages_to_show : List Nat) : Int :=
  let first_coord := coords.getD first_msg_idx default
  if messages_to_show.headD 0 = first_msg_idx ∧ messages_to_show ≠ [] then
    max 0 (first_coord.y - 15)
  else if first_msg_idx ≥ 1 then
    let prev_coord := coords.getD (first_msg_idx - 1) default
    let prev_bottom := prev_coord.y + prev_coord.height
    let distance := first_coord.y - prev_bottom
    max 0 (prev_bottom + Int.fdiv distance 2)
  else
    max 0 (first_coord.y - 15)

/-- The bottom crop boundary computed by
`ProgressiveMessageOverlay._create_group_frame` for a frame revealing
`messages_shown` messages of `group_messages`: the call passes
`messages_to_show[-1]` as `last_msg_idx`. `none` when no message is shown. -/
def create_group_frame_bottom (coords : List Coord) (croppedHeight : Int)
    (group_messages : List Nat) (messages_shown : Nat) : Option Int :=
  if messages_shown > 0 then
    let messages_to_show := group_messages.take messages_shown
    match messages_to_show.getLast? with
    | none => none
    | some last_msg_idx =>
        some (calculate_bottom_boundary coords croppedHeight last_msg_idx messages_to_show)
  else none

/-! ## Overlay construction: cropping and coordinate adjustment -/

/-- The top crop offset chosen by `_crop_whatsapp_borders`: 15 px above the
topmost message, clamped at 0; `int(height * 0.25)` when no coordinates. -/
def crop_top_padding (coords : List Coord) (imgHeight : Int) : Int :=
  match coords with
  | [] => pyInt ((imgHeight : ℚ) * (25 / 100))
  | c :: rest => max 0 ((rest.map (·.y)).foldl min c.y - 15)

/-- `ProgressiveMessageOverlay._adjust_coordinates_for_cropping`:
subtract the top padding from every coordinate's `y`. -/
def adjust_coordinates_for_cropping (coords : List Coord) (top_padding : Int) :
    List Coord :=
  coords.map (fun c => { c with y := c.y - top_padding })

/-- The message coordinates after `ProgressiveMessageOverlay.__init__`
(which loads, crops and adjusts once via `_load_and_crop_base_image`). -/
def overlay_init_coords (coords : List Coord) (imgHeight : Int) : List Coord :=
  adjust_coordinates_for_cropping coords (crop_top_padding coords imgHeight)

/-! ## Database gateway (`database_integration.py`) -/

/-- Status of a `voices` row. -/
inductive VStatus where
  | pending | processing | completed | failed
deriving DecidableEq, Repr, Inhabited

instance : BEq VStatus := ⟨fun a b => decide (a = b)⟩

instance : LawfulBEq VStatus where
  eq_of_beq h := of_decide_eq_true h
  rfl := decide_eq_true rfl

/-- A row of the `voices` table. -/
structure VoiceRow where
  id : Nat
  video_id : Nat
  voice_mapping_id : Option Nat
  character_name : String
  text_content : String
  status : VStatus
  output_audio_path : Option String
  is_local_storage : Bool
  remote_storage_path : Option String
  error_message : Option String
deriving DecidableEq, Repr, Inhabited

/-- The `voices` table, rows in insertion (`created_at`) order. -/
abbrev DB := List VoiceRow

/-- `VoiceCloningDatabase.create_voice_request`: insert a fresh `pending`
row and return its id (the generated uuid is modelled by `newId`). -/
def create_voice_request (db : DB) (newId videoId : Nat)
    (character text : String) (mapping : Option Nat) : Nat × DB :=
  (newId, db ++ [{ id := newId, video_id := videoId, voice_mapping_id := mapping,
                   character_name := character, text_content := text,
                   status := .pending, output_audio_path := none,
                   is_local_storage := true, remote_storage_path := none,
                   error_message := none }])

/-- `VoiceCloningDatabase.start_processing_voice`: conditional update
`SET status='processing' WHERE id=? AND status='pending'`; returns
`rowcount > 0` and the updated table. -/
def start_processing_voice (db : DB) (vid : Nat) : Bool × DB :=
  (decide (0 < db.countP (fun r => r.id == vid && r.status == VStatus.pending)),
   db.map (fun r => if r.id == vid && r.status == VStatus.pending then
      { r with status := .processing } else r))

/-- `VoiceCloningDatabase.complete_voice_processing_with_storage`:
`SET status='completed', output_audio_path=?, is_local_storage=?,
remote_storage_path=? WHERE id=?`; returns `rowcount > 0`. -/
def complete_voice_processing_with_storage (db : DB) (vid : Nat)
    (path : String) (is_local : Bool) (remote : Option String) : Bool × DB :=
  (decide (0 < db.countP (fun r => r.id == vid)),
   db.map (fun r => if r.id == vid then
      { r with status := .completed, output_audio_path := some path,
               is_local_storage := is_local, remote_storage_path := remote } else r))

/-- `VoiceCloningDatabase.fail_voice_processing`:
`SET status='failed', error_message=? WHERE id=?`; returns `rowcount > 0`. -/
def fail_voice_processing (db : DB) (vid : Nat) (err : String) : Bool × DB :=
  (decide (0 < db.countP (fun r => r.id == vid)),
   db.map (fun r => if r.id == vid then
      { r with status := .failed, error_message := some err } else r))

/-- `COUNT(*)` of `get_video_voices_status`. -/
def total_voices (db : DB) (v : Nat) : Nat :=
  db.countP (fun r => r.video_id == v)

/-- `COUNT(CASE WHEN status = 'completed' ...)` of `get_video_voices_status`. -/
def completed_voices (db : DB) (v : Nat) : Nat :=
  db.countP (fun r => r.video_id == v && r.status == VStatus.completed)

/-- `VoiceCloningDatabase.check_all_voices_completed`:
`total_voices > 0 and completed_voices == total_voices`. -/
def check_all_voices_completed (db : DB) (v : Nat) : Bool :=
  decide (0 < total_voices db v) && (completed_voices db v == total_voices db v)

/-- One write operation of the database gateway. -/
inductive GatewayOp where
  | createVoice (newId videoId : Nat) (character text : String) (mapping : Option Nat)
  | claimVoice (vid : Nat)
  | completeVoice (vid : Nat) (path : String) (is_local : Bool) (remote : Option String)
  | failVoice (vid : Nat) (err : String)
deriving DecidableEq, Repr

/-- Effect of a gateway operation on the `voices` table. -/
def applyOp (db : DB) : GatewayOp → DB
  | .createVoice newId videoId character text mapping =>
      (create_voice_request db newId videoId character text mapping).2
  | .claimVoice vid => (start_processing_voice db vid).2
  | .completeVoice vid path is_local remote =>
      (complete_voice_processing_with_storage db vid path is_local remote).2
  | .failVoice vid err => (fail_voice_processing db vid err).2

/-- Whether an operation is a claim or a completion. -/
def GatewayOp.isClaimOrComplete : GatewayOp → Bool
  | .claimVoice _ => true
  | .completeVoice _ _ _ _ => true
  | _ => false

/-! ## Voice worker (`VoiceProcessingWorker.process_single_voice`) -/

/-- Worker configuration: `USE_LOCAL_STORAGE` and whether a storage client
was constructed (`LocalStorageClient` importable). -/
structure WorkerConfig where
  use_local_storage : Bool
  has_storage_client : Bool
  output_dir : String
deriving Repr

/-- A `voice_mappings` row. -/
structure VoiceMapping where
  id : Nat
  voice_id : String
  voice_name : String
  voice_file : String
  is_default : Bool
deriving DecidableEq, Repr

/-- `VoiceProcessingWorker.process_single_voice` for the row `vid`:
claim; resolve the mapping (row mapping or default, already combined in
`mapping`); derive the output path; in remote-storage mode attempt the
upload, whose external outcome is `uploadResult` (`none` = failure); mark
completed with the final path and storage flags, falling back to
`fail_voice_processing` when a step raises. The TTS step is simulated in
the source (`time.sleep(2)`), so it has no effect to model. -/
def process_single_voice (db : DB) (cfg : WorkerConfig) (vid : Nat)
    (character : String) (mapping : Option VoiceMapping)
    (uploadResult : Option String) : DB :=
  let claim := start_processing_voice db vid
  if claim.1 = false then claim.2
  else
    match mapping with
    | none => (fail_voice_processing claim.2 vid "No voice mapping available").2
    | some _ =>
        let output_path := cfg.output_dir ++ "/" ++ toString vid ++ "_" ++ character ++ ".wav"
        let remote_path := if !cfg.use_local_storage && cfg.has_storage_client
                           then uploadResult else none
        let final_path := match remote_path with
                          | some r => r
                          | none => output_path
        let is_local := remote_path.isNone
        let compl := complete_voice_processing_with_storage claim.2 vid final_path is_local remote_path
        if compl.1 then compl.2
        else (fail_voice_processing compl.2 vid "Failed to update voice status to completed").2

/-! ## Queue consumer shell (`queue_consumer.py`) -/

/-- Result dict of `_process_single_message` (it catches all exceptions,
so it always returns a dict with a `success` flag). -/
structure ProcessResult where
  success : Bool
  error : Option String
deriving DecidableEq, Repr

/-- A message as returned by `consume_message`: a parsed JSON dict, of
which the consumer shell itself inspects only whether the `id` key is
present (`message['id']` at the log line indexes it unconditionally; the
jobber payload shape `{video_id, messages, voice_mapping}` carries no
`id`). -/
structure QueueMessage where
  has_id : Bool
deriving DecidableEq, Repr

/-- External behaviour visible to one run of `_consume_single_message`:
whether `connect` succeeds, the message `consume_message` yields (`none`
covers both the empty queue and the malformed-payload case), and the
result of processing it. -/
structure ConsumerEnv where
  connect_ok : Bool
  message : Option QueueMessage
  processing : ProcessResult
deriving Repr

/-- Side effects of the consumer shell, in order of occurrence. -/
inductive ConsumerEvent where
  | connect | consumeMessage | processMessage | deleteQueue | closeConn
deriving DecidableEq, Repr

/-- `VoiceCloningQueueConsumer._consume_single_message`: returns the result
dict (or the propagated exception) and the ordered trace of broker-facing
actions. The `finally` block closes the connection on every path.
`message['id']` is indexed unconditionally before processing, so a
received message without an `id` key raises `KeyError` through the
`try`/`finally` and the run ends with only the connection close;
`delete_queue` is reached only after a message has been processed. -/
def consume_single_message (env : ConsumerEnv) :
    Except String ProcessResult × List ConsumerEvent :=
  if env.connect_ok = false then
    (.ok { success := false, error := some "Connection failed" },
     [.connect, .closeConn])
  else
    match env.message with
    | none =>
        (.ok { success := false, error := some "No message received" },
         [.connect, .consumeMessage, .closeConn])
    | some msg =>
        if msg.has_id = false then
          (.error "KeyError: id",
           [.connect, .consumeMessage, .closeConn])
        else
          (.ok env.processing,
           [.connect, .consumeMessage, .processMessage, .deleteQueue, .closeConn])

/-! ## Screenshot client (`node_service_client.py`) -/

/-- Parsed JSON body of the screenshot service response. -/
structure NodeResponse where
  success : Bool
  error : Option String
  imagePaths : List String
  messageCoordinates : List Coord
deriving Repr

/-- Outcome of the HTTP POST as seen by the client. -/
inductive HttpOutcome where
  | ok (resp : NodeResponse)
  | httpError (status : Nat)
  | transportError (msg : String)
deriving Repr

/-- `NodeServiceClient.get_screenshot_with_coordinates`: raise on transport
errors and non-2xx statuses, raise when `success` is falsy or `imagePaths`
is empty; otherwise return `imagePaths[0]` together with whatever
`messageCoordinates` the response carried (an empty list only logs a
warning). `messages` is the request payload. -/
def get_screenshot_with_coordinates (messages : List String)
    (outcome : HttpOutcome) : Except String (String × List Coord) :=
  match outcome with
  | .transportError e => .error ("Node.js service communication failed: " ++ e)
  | .httpError s => .error ("Node.js service communication failed: HTTP " ++ toString s)
  | .ok resp =>
      if resp.success = false then
        .error ("Node.js service error: " ++ resp.error.getD "Unknown error")
      else if resp.imagePaths.isEmpty then
        .error "No screenshot path returned from Node.js service"
      else
        .ok (resp.imagePaths.headD "", resp.messageCoordinates)

/-! ## Concrete fixtures used by witnesses and counterexamples -/

/-- Reachable state used by the C2 counterexample: one voice created for
video 7, claimed and completed. -/
def c2db1 : DB := (create_voice_request [] 10 7 "alice" "hey" none).2

def c2db2 : DB := (start_processing_voice c2db1 10).2

def c2db3 : DB := (complete_voice_processing_with_storage c2db2 10 "out.wav" true none).2

/-- Witness database for the C2 monotonicity theorem. -/
def c2wdb : DB :=
  [{ id := 10, video_id := 7, voice_mapping_id := none, character_name := "alice",
     text_content := "hey", status := VStatus.completed,
     output_audio_path := some "out.wav", is_local_storage := true,
     remote_storage_path := none, error_message := none }]

/-- Witness database for C3: a pending row that a first claim wins. -/
def c3db : DB :=
  [{ id := 5, video_id := 1, voice_mapping_id := none, character_name := "bob",
     text_content := "hi", status := VStatus.pending, output_audio_path := none,
     is_local_storage := true, remote_storage_path := none, error_message := none }]

/-- Witness row for C9: a row already in the terminal state `completed`. -/
def c9row : VoiceRow :=
  { id := 3, video_id := 2, voice_mapping_id := none, character_name := "eve",
    text_content := "yo", status := VStatus.completed,
    output_audio_path := some "a.wav", is_local_storage := true,
    remote_storage_path := none, error_message := none }

def c9db : DB := [c9row]

/-- The row rewritten to `failed` by the unguarded terminal write. -/
def c9rowFailed : VoiceRow :=
  { c9row with status := VStatus.failed, error_message := some "late failure" }

/-- C5 counterexample environment: the connection succeeds and the queue
yields no message — a terminating run of `_consume_single_message`. -/
def c5envNoMsg : ConsumerEnv :=
  { connect_ok := true, message := none,
    processing := { success := true, error := none } }

/-- C6 counterexample response: success, one screenshot path, but an empty
`messageCoordinates` list against a one-message request. -/
def c6resp : NodeResponse :=
  { success := true, error := none, imagePaths := ["p.png"],
    messageCoordinates := [] }

/-- Witness response for C6: two messages, two coordinates. -/
def c6wresp : NodeResponse :=
  { success := true, error := none, imagePaths := ["s.png"],
    messageCoordinates :=
      [{ y := 10, height := 5, width := 7, index := 0, fromUser := "A", text := "a" },
       { y := 20, height := 5, width := 7, index := 1, fromUser := "B", text := "b" }] }

/-- C4 failing input: a group of two messages (boxes `y=100,h=50` and
`y=200,h=50`), of which only the first is revealed (`k = 1 < |G| = 2`). -/
def c4coords : List Coord :=
  [{ y := 100, height := 50, width := 200, index := 0, fromUser := "A", text := "m0" },
   { y := 200, height := 50, width := 200, index := 1, fromUser := "B", text := "m1" }]

/-- Witness coordinates for C10. -/
def c10coords : List Coord :=
  [{ y := 100, height := 40, width := 300, index := 0, fromUser := "A", text := "w" }]

def c10coordAdjusted : Coord :=
  { y := 15, height := 40, width := 300, index := 0, fromUser := "A", text := "w" }

/-- Witness fixtures for C8. -/
def c8row : VoiceRow :=
  { id := 4, video_id := 9, voice_mapping_id := none, character_name := "eve",
    text_content := "hello", status := VStatus.pending, output_audio_path := none,
    is_local_storage := true, remote_storage_path := none, error_message := none }

def c8db : DB := [c8row]

def c8cfg : WorkerConfig :=
  { use_local_storage := false, has_storage_client := true, output_dir := "/tmp/out" }

def c8map : VoiceMapping :=
  { id := 1, voice_id := "v", voice_name := "n", voice_file := "f.wav",
    is_default := true }

/-- The row as the worker leaves it after a failed upload. -/
def c8result : VoiceRow :=
  { id := 4, video_id := 9, voice_mapping_id := none, character_name := "eve",
    text_content := "hello", status := VStatus.completed,
    output_audio_path := some "/tmp/out/4_eve.wav", is_local_storage := true,
    remote_storage_path := none, error_message := none }

/-- Coordinate fixture for the C1 concrete instances. -/
def demoCoord : Coord :=
  { y := 100, height := 50, width := 200, index := 0, fromUser := "A", text := "hi" }

/-! ## Theorems: database gateway -/

theorem completed_le_total (db : DB) (v : Nat) :
    completed_voices db v ≤ total_voices db v :=
  List.countP_mono_left (fun r _ h => (Bool.and_eq_true _ _ ▸ h).1)

theorem completed_eq_total_iff (db : DB) (v : Nat) :
    completed_voices db v = total_voices db v ↔
      ∀ r ∈ db, r.video_id = v → r.status = VStatus.completed := by
  induction db with
  | nil => simp [completed_voices, total_voices]
  | cons r t ih =>
      have hle := completed_le_total t v
      simp only [completed_voices, total_voices] at hle ih ⊢
      by_cases hv : r.video_id = v
      · by_cases hs : r.status = VStatus.completed
        · simp [List.countP_cons, hv, hs, ih]
        · apply iff_of_false
          · intro h
            have hq : (r.video_id == v && r.status == VStatus.completed) = false := by
              simp [hs]
            have hp : (r.video_id == v) = true := by simp [hv]
            rw [List.countP_cons, List.countP_cons, hq, hp] at h
            simp at h
            omega
          · intro hall
            exact hs (hall r (List.mem_cons_self r t) hv)
      · have hq : (r.video_id == v && r.status == VStatus.completed) = false := by
          simp [hv]
        have hp : (r.video_id == v) = false := by simp [hv]
        simp [List.countP_cons, hq, hp, ih, hv]

theorem check_all_voices_completed_iff (db : DB) (v : Nat) :
    check_all_voices_completed db v = true ↔
      (∃ r ∈ db, r.video_id = v) ∧
        ∀ r ∈ db, r.video_id = v → r.status = VStatus.completed := by
  simp only [check_all_voices_completed, Bool.and_eq_true, decide_eq_true_iff,
    beq_iff_eq, completed_eq_total_iff]
  simp only [total_voices, List.countP_pos_iff, beq_iff_eq]

theorem check_mono_map (db : DB) (v : Nat) (f : VoiceRow → VoiceRow)
    (hvid : ∀ r, (f r).video_id = r.video_id)
    (hst : ∀ r, r.video_id = v → r.status = VStatus.completed →
      (f r).status = VStatus.completed)
    (h : check_all_voices_completed db v = true) :
    check_all_voices_completed (db.map f) v = true := by
  rw [check_all_voices_completed_iff] at h ⊢
  obtain ⟨⟨r, hr, hrv⟩, hall⟩ := h
  refine ⟨⟨f r, List.mem_map_of_mem f hr, by rw [hvid]; exact hrv⟩, ?_⟩
  intro r' hr' hv'
  obtain ⟨r0, hr0, rfl⟩ := List.mem_map.mp hr'
  have hv0 : r0.video_id = v := by rw [hvid] at hv'; exact hv'
  exact hst r0 hv0 (hall r0 hr0 hv0)

/-- C2 (amended): once `all_voices_completed(v)` holds, the gateway
operations `claim_voice` and `complete_voice` preserve it; `create_voice`
for video `v` and `fail_voice` on a row of `v` can falsify it. -/
theorem claim2_monotone_claim_complete (db : DB) (v : Nat) (op : GatewayOp)
    (hop : op.isClaimOrComplete = true)
    (h : check_all_voices_completed db v = true) :
    check_all_voices_completed (applyOp db op) v = true := by
  cases op with
  | createVoice newId videoId character text mapping =>
      exact absurd hop (by simp [GatewayOp.isClaimOrComplete])
  | failVoice vid err =>
      exact absurd hop (by simp [GatewayOp.isClaimOrComplete])
  | claimVoice vid =>
      refine check_mono_map db v _ ?_ ?_ h
      · intro r; dsimp only; split <;> rfl
      · intro r _ hcomp; dsimp only
        rw [if_neg]
        · exact hcomp
        · simp [hcomp]
  | completeVoice vid path il rp =>
      refine check_mono_map db v _ ?_ ?_ h
      · intro r; dsimp only; split <;> rfl
      · intro r _ hcomp; dsimp only
        split
        · rfl
        · exact hcomp

/-- C2 counterexample: in the reachable state `c2db3`,
`all_voices_completed(7)` holds, and a single further gateway operation —
`fail_voice` on the completed row (which carries no status guard) —
makes it false again. -/
theorem claim2_counterexample :
    check_all_voices_completed c2db3 7 = true ∧
      check_all_voices_completed (applyOp c2db3 (GatewayOp.failVoice 10 "boom")) 7 = false := by
  decide

/-- Witness for C2 (amended): a concrete completed state preserved by a `complete_voice` operation. -/
theorem claim2_witness :
    check_all_voices_completed
      (applyOp c2wdb (GatewayOp.completeVoice 10 "p.wav" true none)) 7 = true :=
  claim2_monotone_claim_complete c2wdb 7 (GatewayOp.completeVoice 10 "p.wav" true none)
    (by decide) (by decide)

/-- C3: `start_processing_voice` returns `true` iff some row with the given
id is `pending` at the call; such rows transition to `processing`; and of
two successive claims on the same id, at most one returns `true`. -/
theorem claim3_single_claimer (db : DB) (vid : Nat) :
    ((start_processing_voice db vid).1 = true ↔
      ∃ r ∈ db, r.id = vid ∧ r.status = VStatus.pending)
    ∧ (∀ r ∈ db, r.id = vid → r.status = VStatus.pending →
        { r with status := VStatus.processing } ∈ (start_processing_voice db vid).2)
    ∧ ¬((start_processing_voice db vid).1 = true ∧
        (start_processing_voice (start_processing_voice db vid).2 vid).1 = true) := by
  refine ⟨?_, ?_, ?_⟩
  · simp [start_processing_voice, List.countP_pos_iff]
  · intro r hr hid hst
    have hmem := List.mem_map_of_mem
      (fun r => if r.id == vid && r.status == VStatus.pending then
        { r with status := VStatus.processing } else r) hr
    simpa [start_processing_voice, hid, hst] using hmem
  · rintro ⟨-, h2⟩
    simp only [start_processing_voice, decide_eq_true_iff, List.countP_pos_iff,
      Bool.and_eq_true, beq_iff_eq] at h2
    obtain ⟨r', hr', hid', hst'⟩ := h2
    obtain ⟨r0, _, rfl⟩ := List.mem_map.mp hr'
    by_cases hc : r0.id = vid ∧ r0.status = VStatus.pending
    · rw [if_pos hc] at hst'
      exact absurd hst' (by simp)
    · rw [if_neg hc] at hid' hst'
      exact hc ⟨hid', hst'⟩

/-- Witness for C3: on a concrete pending row, the first claim wins and a second successive claim cannot also win. -/
theorem claim3_witness :
    (start_processing_voice c3db 5).1 = true ∧
      ¬((start_processing_voice c3db 5).1 = true ∧
        (start_processing_voice (start_processing_voice c3db 5).2 5).1 = true) :=
  ⟨(claim3_single_claimer c3db 5).1.mpr ⟨c3db.headD default, by decide, by decide, by decide⟩,
   (claim3_single_claimer c3db 5).2.2⟩

/-- C9: both terminal writes carry no status guard — for any existing row,
regardless of status, `complete_voice_processing_with_storage` drives it to
`completed` and `fail_voice_processing` to `failed`, and each returns
`true` exactly when a row with the id exists. -/
theorem claim9_terminal_writes_unguarded (db : DB) (vid : Nat) (path : String)
    (il : Bool) (rp : Option String) (err : String) :
    ((complete_voice_processing_with_storage db vid path il rp).1 = true ↔
      ∃ r ∈ db, r.id = vid)
    ∧ ((fail_voice_processing db vid err).1 = true ↔ ∃ r ∈ db, r.id = vid)
    ∧ (∀ r ∈ db, r.id = vid →
        { r with status := VStatus.completed, output_audio_path := some path,
                 is_local_storage := il, remote_storage_path := rp }
          ∈ (complete_voice_processing_with_storage db vid path il rp).2)
    ∧ (∀ r ∈ db, r.id = vid →
        { r with status := VStatus.failed, error_message := some err }
          ∈ (fail_voice_processing db vid err).2) := by
  refine ⟨?_, ?_, ?_, ?_⟩
  · simp [complete_voice_processing_with_storage, List.countP_pos_iff]
  · simp [fail_voice_processing, List.countP_pos_iff]
  · intro r hr hid
    have hmem := List.mem_map_of_mem
      (fun r => if r.id == vid then
        { r with status := VStatus.completed, output_audio_path := some path,
                 is_local_storage := il, remote_storage_path := rp } else r) hr
    simpa [complete_voice_processing_with_storage, hid] using hmem
  · intro r hr hid
    have hmem := List.mem_map_of_mem
      (fun r => if r.id == vid then
        { r with status := VStatus.failed, error_message := some err } else r) hr
    simpa [fail_voice_processing, hid] using hmem

/-- Witness for C9: the unguarded `fail_voice` write succeeds on a concrete already-completed row. -/
theorem claim9_witness :
    (fail_voice_processing c9db 3 "late failure").1 = true ∧
      c9rowFailed ∈ (fail_voice_processing c9db 3 "late failure").2 :=
  ⟨(claim9_terminal_writes_unguarded c9db 3 "p" true none "late failure").2.1.mpr
      ⟨c9row, by decide, by decide⟩,
   (claim9_terminal_writes_unguarded c9db 3 "p" true none "late failure").2.2.2
      c9row (by decide) (by decide)⟩

/-! ## Theorems: queue consumer shell -/

/-- C5 counterexample: in the terminating no-message run, queue deletion is
never attempted — the function returns right after `consume_message`,
contradicting the claim that every branch attempts deletion. -/
theorem claim5_counterexample :
    ConsumerEvent.deleteQueue ∉ (consume_single_message c5envNoMsg).2 := by
  decide

/-- C5 (amended): queue deletion is attempted exactly in the runs where a
message was received and it carries an `id` key (so the unconditional
`message['id']` access does not raise), regardless of whether processing
succeeded; the connection-failure, no-message and missing-`id` branches
exit without attempting deletion. -/
theorem claim5_delete_iff_message (env : ConsumerEnv) :
    ConsumerEvent.deleteQueue ∈ (consume_single_message env).2 ↔
      env.connect_ok = true
        ∧ ∃ m, env.message = some m ∧ m.has_id = true := by
  unfold consume_single_message
  cases hc : env.connect_ok
  · simp [hc]
  · cases hm : env.message with
    | none => simp [hm]
    | some m => cases hid : m.has_id <;> simp [hm, hid]

/-! ## Theorems: screenshot client -/

/-- C6 counterexample: with a coordinate list whose length (0) differs from
`len(messages)` (1), the operation still returns a result instead of
failing — the source never compares the two lengths. -/
theorem claim6_counterexample :
    get_screenshot_with_coordinates ["m"] (HttpOutcome.ok c6resp)
        = .ok ("p.png", []) ∧
      c6resp.messageCoordinates.length ≠ (["m"] : List String).length := by
  exact ⟨rfl, by decide⟩

/-- C6 (amended): the operation fails exactly when the response's `success`
flag is false or `imagePaths` is empty; a `messageCoordinates` length
differing from `len(messages)` (including an empty list) is not checked,
and the result is returned with whatever coordinates the response
carried. -/
theorem claim6_no_length_check (messages : List String) (resp : NodeResponse) :
    (resp.success = true → resp.imagePaths ≠ [] →
      get_screenshot_with_coordinates messages (HttpOutcome.ok resp)
        = .ok (resp.imagePaths.headD "", resp.messageCoordinates))
    ∧ ((∃ e, get_screenshot_with_coordinates messages (HttpOutcome.ok resp)
          = .error e) ↔
        resp.success = false ∨ resp.imagePaths = []) := by
  unfold get_screenshot_with_coordinates
  cases hs : resp.success <;> cases hp : resp.imagePaths <;> simp [hs, hp]

/-- Witness for C6 (amended): a concrete successful response is returned as-is. -/
theorem claim6_witness :
    get_screenshot_with_coordinates ["m1", "m2"] (HttpOutcome.ok c6wresp)
      = .ok ("s.png", c6wresp.messageCoordinates) :=
  (claim6_no_length_check ["m1", "m2"] c6wresp).1 rfl (by decide)

/-! ## Theorems: progressive overlay boundaries -/

/-- C4: contrary to the claim (and the function's own comment, which
reserves the `+15` padding for "the last message in the group"), the code
computes `coordinates[last].y + height + 15 = 165` for this strict-prefix
frame, not the halfway cut `150 + (200 - 150) // 2 = 175`: the caller
passes `messages_to_show[-1]` itself as `last_msg_idx`, so the guard
`last_msg_idx == messages_to_show[-1]` always holds and the halfway branch
is unreachable. -/
theorem claim4_code_bug :
    create_group_frame_bottom c4coords 400 [0, 1] 1 = some 165 ∧
      create_group_frame_bottom c4coords 400 [0, 1] 1
        ≠ some (150 + Int.fdiv (200 - 150) 2) := by
  exact ⟨by decide, by decide⟩

/-! ## Theorems: constructor coordinate adjustment -/

/-- C10: constructing the overlay rewrites the coordinate list exactly
once: the list keeps its length, and the entry at every index has its `y`
decreased by the computed top crop offset while `height`, `width`,
`index`, `from` and `text` are unchanged. -/
theorem claim10_coords_adjust (coords : List Coord) (imgH : Int) (i : Nat)
    (c c2 : Coord) (hc : coords[i]? = some c)
    (hc2 : (overlay_init_coords coords imgH)[i]? = some c2) :
    (overlay_init_coords coords imgH).length = coords.length
    ∧ c2.y = c.y - crop_top_padding coords imgH
    ∧ c2.height = c.height ∧ c2.width = c.width ∧ c2.index = c.index
    ∧ c2.fromUser = c.fromUser ∧ c2.text = c.text := by
  have hmap : (overlay_init_coords coords imgH)[i]?
      = (coords[i]?).map (fun c => { c with y := c.y - crop_top_padding coords imgH }) := by
    simp [overlay_init_coords, adjust_coordinates_for_cropping]
  rw [hmap, hc] at hc2
  have hc2eq : { c with y := c.y - crop_top_padding coords imgH } = c2 := by
    simpa using hc2
  subst hc2eq
  exact ⟨by simp [overlay_init_coords, adjust_coordinates_for_cropping], rfl,
    rfl, rfl, rfl, rfl, rfl⟩

/-- Witness for C10 at a concrete one-element coordinate list. -/
theorem claim10_witness :
    (overlay_init_coords c10coords 800).length = c10coords.length
    ∧ c10coordAdjusted.y = (c10coords.headD default).y - crop_top_padding c10coords 800
    ∧ c10coordAdjusted.height = (c10coords.headD default).height
    ∧ c10coordAdjusted.width = (c10coords.headD default).width
    ∧ c10coordAdjusted.index = (c10coords.headD default).index
    ∧ c10coordAdjusted.fromUser = (c10coords.headD default).fromUser
    ∧ c10coordAdjusted.text = (c10coords.headD default).text :=
  claim10_coords_adjust c10coords 800 0 (c10coords.headD default) c10coordAdjusted
    (by decide) (by decide)

/-! ## Theorems: overlay length-mismatch failure -/

/-- C7: when the lengths of `audio_durations` and of the message
coordinates differ, `create_progressive_frames` raises before writing any
frame, and the frame set of the output directory is unchanged. -/
theorem claim7_mismatch_is_fatal (fs : List String) (coords : List Coord)
    (durations : List ℚ) (fps startB endB pause : ℚ) (k : Nat)
    (h : durations.length ≠ coords.length) :
    (∃ e, (run_create_progressive_frames fs coords durations fps startB endB pause k).1
        = .error e)
    ∧ (run_create_progressive_frames fs coords durations fps startB endB pause k).2
        = fs := by
  simp only [run_create_progressive_frames, create_progressive_frames, if_pos h]
  exact ⟨⟨_, rfl⟩, trivial⟩

/-- Witness for C7 at a concrete mismatched input: one duration, no coordinates. -/
theorem claim7_witness :
    (∃ e, (run_create_progressive_frames ["old.png"] [] [(1:ℚ)] 30 1 3 (1/2) 4).1
        = .error e)
    ∧ (run_create_progressive_frames ["old.png"] [] [(1:ℚ)] 30 1 3 (1/2) 4).2
        = ["old.png"] :=
  claim7_mismatch_is_fatal ["old.png"] [] [(1:ℚ)] 30 1 3 (1/2) 4 (by decide)

/-! ## Theorems: worker upload-failure handling -/

/-- C8: in remote-storage mode, when the upload returns no remote
identifier (`none`), the worker still drives the claimed row to
`completed`, with the local output path, `is_local_storage = true` and no
remote path — the row is never marked `failed` on account of the upload. -/
theorem claim8_upload_failure_still_completes (db : DB) (cfg : WorkerConfig)
    (vid : Nat) (character : String) (m : VoiceMapping) (r : VoiceRow)
    (hr : r ∈ db) (hid : r.id = vid) (hst : r.status = VStatus.pending)
    (hremote : cfg.use_local_storage = false) (hclient : cfg.has_storage_client = true) :
    ∀ r2 ∈ process_single_voice db cfg vid character (some m) none,
      r2.id = vid →
        r2.status = VStatus.completed
        ∧ r2.output_audio_path
            = some (cfg.output_dir ++ "/" ++ toString vid ++ "_" ++ character ++ ".wav")
        ∧ r2.is_local_storage = true
        ∧ r2.remote_storage_path = none := by
  have hclaim : (start_processing_voice db vid).1 = true := by
    simp only [start_processing_voice, decide_eq_true_iff]
    exact List.countP_pos_iff.mpr ⟨r, hr, by simp [hid, hst]⟩
  have hexists : (complete_voice_processing_with_storage (start_processing_voice db vid).2
      vid (cfg.output_dir ++ "/" ++ toString vid ++ "_" ++ character ++ ".wav")
      true none).1 = true := by
    simp only [complete_voice_processing_with_storage, decide_eq_true_iff]
    refine List.countP_pos_iff.mpr
      ⟨(fun r => if r.id == vid && r.status == VStatus.pending then
          { r with status := VStatus.processing } else r) r,
        List.mem_map_of_mem _ hr, ?_⟩
    simp [hid, hst]
  have hres : process_single_voice db cfg vid character (some m) none
      = (complete_voice_processing_with_storage (start_processing_voice db vid).2 vid
          (cfg.output_dir ++ "/" ++ toString vid ++ "_" ++ character ++ ".wav")
          true none).2 := by
    simp only [process_single_voice, hclaim, hremote, hclient]
    simp [hexists]
  intro r2 hr2 hid2
  rw [hres] at hr2
  simp only [complete_voice_processing_with_storage] at hr2
  obtain ⟨r0, hr0, rfl⟩ := List.mem_map.mp hr2
  by_cases h0 : r0.id = vid
  · simp [h0]
  · have hcond : ¬((r0.id == vid) = true) := by simp [h0]
    rw [if_neg hcond] at hid2 ⊢
    exact absurd hid2 h0

/-- Witness for C8: concrete worker run with a failed upload ends with the completed local-storage row. -/
theorem claim8_witness :
    c8result.status = VStatus.completed
    ∧ c8result.output_audio_path
        = some (c8cfg.output_dir ++ "/" ++ toString 4 ++ "_" ++ "eve" ++ ".wav")
    ∧ c8result.is_local_storage = true
    ∧ c8result.remote_storage_path = none :=
  claim8_upload_failure_still_completes c8db c8cfg 4 "eve" c8map c8row
    (by decide) (by decide) (by decide) (by decide) (by decide)
    c8result (by decide) (by decide)

/-! ## Theorems: overlay frame count (C1) -/

theorem groupFramesAux_length (fps pause : ℚ) (durations : List ℚ) (g : List Nat) :
    ∀ (l : List Nat) (i : Nat),
      (groupFramesAux fps pause durations g i l).length
        = (l.map (fun m => pyNat (durations.getD m 0 * fps))).sum
          + (l.length - 1) * pyNat (pause * fps)
  | [], _ => by simp [groupFramesAux]
  | [m], _ => by simp [groupFramesAux]
  | m :: m2 :: rest, i => by
      have ih := groupFramesAux_length fps pause durations g (m2 :: rest) (i + 1)
      simp only [groupFramesAux, List.length_append, List.length_replicate, ih,
        List.map_cons, List.sum_cons, List.length_cons, Nat.add_sub_cancel]
      ring

theorem groupFrames_length (fps pause : ℚ) (durations : List ℚ) (g : List Nat) :
    (groupFrames fps pause durations g).length
      = (g.map (fun m => pyNat (durations.getD m 0 * fps))).sum
        + (g.length - 1) * pyNat (pause * fps) :=
  groupFramesAux_length fps pause durations g g 0

theorem chunkFuel_flatten (k : Nat) :
    ∀ (fuel : Nat) (l : List α), l.length ≤ fuel → (chunkFuel k fuel l).flatten = l
  | _, [], _ => by simp [chunkFuel]
  | 0, x :: xs, h => by simp at h
  | fuel + 1, x :: xs, h => by
      have hlen : (xs.drop k).length ≤ fuel := by
        simp only [List.length_drop]
        simp only [List.length_cons] at h
        omega
      have ih := chunkFuel_flatten k fuel (xs.drop k) hlen
      simp [chunkFuel, ih]

theorem chunkList_flatten (k : Nat) (l : List α) : (chunkList k l).flatten = l :=
  chunkFuel_flatten k l.length l le_rfl

/-- The contiguous groups partition the message indices. -/
theorem messageGroups_flatten (k total : Nat) :
    (messageGroups k total).flatten = List.range total :=
  chunkList_flatten _ _

theorem map_range_getD (l : List α) (d : α) (f : α → β) :
    (List.range l.length).map (fun i => f (l.getD i d)) = l.map f := by
  induction l with
  | nil => simp
  | cons a t ih =>
      simp only [List.length_cons, List.range_succ_eq_map, List.map_cons, List.map_map,
        List.getD_cons_zero, List.getD_cons_succ, Function.comp_def]
      rw [ih]

/-- C1 (amended): the number of frames produced equals
`int(start_buffer·fps) + Σ_i int(duration_i·fps)
 + (Σ_g (|g|−1))·int(pause·fps) + int(end_buffer·fps)` —
each term truncated toward zero individually by Python `int()`, not the
rounding of the exact total claimed by the spec. -/
theorem claim1_frame_count (coords : List Coord) (durations : List ℚ)
    (fps startB endB pause : ℚ) (k : Nat)
    (hlen : durations.length = coords.length) :
    (create_progressive_frames coords durations fps startB endB pause k).toOption.map
        List.length
      = some (pyNat (startB * fps)
          + (durations.map (fun d => pyNat (d * fps))).sum
          + ((messageGroups k coords.length).map (fun g => g.length - 1)).sum
              * pyNat (pause * fps)
          + pyNat (endB * fps)) := by
  have hmid : ((messageGroups k coords.length).map
      (fun g => (groupFrames fps pause durations g).length)).sum
      = (durations.map (fun d => pyNat (d * fps))).sum
        + ((messageGroups k coords.length).map (fun g => g.length - 1)).sum
            * pyNat (pause * fps) := by
    rw [show (fun g => (groupFrames fps pause durations g).length)
        = (fun g : List Nat =>
            (g.map (fun m => pyNat (durations.getD m 0 * fps))).sum
              + (g.length - 1) * pyNat (pause * fps)) from
      funext (groupFrames_length fps pause durations)]
    rw [List.sum_map_add]
    congr 1
    · calc ((messageGroups k coords.length).map
            (fun g => (g.map (fun m => pyNat (durations.getD m 0 * fps))).sum)).sum
          = (((messageGroups k coords.length).map
              (List.map (fun m => pyNat (durations.getD m 0 * fps)))).map List.sum).sum := by
            rw [List.map_map]; rfl
        _ = ((messageGroups k coords.length).map
              (List.map (fun m => pyNat (durations.getD m 0 * fps)))).flatten.sum :=
            List.sum_flatten.symm
        _ = ((messageGroups k coords.length).flatten.map
              (fun m => pyNat (durations.getD m 0 * fps))).sum := by
            rw [List.map_flatten]
        _ = ((List.range coords.length).map
              (fun m => pyNat (durations.getD m 0 * fps))).sum := by
            rw [messageGroups_flatten]
        _ = (durations.map (fun d => pyNat (d * fps))).sum := by
            rw [← hlen]
            exact congrArg List.sum (map_range_getD durations 0 (fun d => pyNat (d * fps)))
    · exact List.sum_map_mul_right _ _ _
  unfold create_progressive_frames
  rw [if_neg (not_not_intro hlen)]
  have htoOpt : ∀ (x : List FrameKind),
      ((Except.ok x : Except String (List FrameKind)).toOption).map List.length
        = some x.length := fun _ => rfl
  rw [htoOpt]
  congr 1
  simp only [List.length_append, List.length_replicate, List.length_flatten,
    List.map_map, Function.comp_def]
  rw [hmid]
  ring

/-- C1 counterexample: one message of duration `1/4` s at `fps = 2`, with
`start_buffer = end_buffer = 1/4` s and no pause. The engine emits
`int(0.5) + int(0.5) + int(0.5) = 0` frames, while the claimed formula
gives `round(2 · 3/4) = round(1.5) = 2`. (All products are dyadic, so the
Python float arithmetic is exact here.) -/
theorem claim1_counterexample :
    ¬((create_progressive_frames [demoCoord] [(1:ℚ)/4] 2 (1/4) (1/4) 0 1).toOption.map
          List.length
        = some (round ((2:ℚ) * ((1/4) + ([(1:ℚ)/4].sum)
            + 0 * (((messageGroups 1 1).map (fun g => (g.length : ℚ) - 1)).sum)
            + (1/4)))).toNat) := by
  have hg : messageGroups 1 1 = [[0]] := by decide
  have e1 : pyNat ((1:ℚ)/4 * 2) = 0 := by
    have h12 : ((1:ℚ)/4 * 2) = 1/2 := by norm_num
    rw [pyNat, pyInt, h12]
    norm_num
    decide
  have e1i : pyNat ((4:ℚ)⁻¹ * 2) = 0 := by
    have h12 : ((4:ℚ)⁻¹ * 2) = 1/2 := by norm_num
    rw [pyNat, pyInt, h12]
    norm_num
    decide
  have hL : (create_progressive_frames [demoCoord] [(1:ℚ)/4] 2 (1/4) (1/4) 0 1).toOption.map
      List.length = some 0 := by
    unfold create_progressive_frames
    rw [if_neg (by decide)]
    simp [hg, groupFrames, groupFramesAux, e1, e1i]
    rfl
  have hR : (round ((2:ℚ) * ((1/4) + ([(1:ℚ)/4].sum)
      + 0 * (((messageGroups 1 1).map (fun g => (g.length : ℚ) - 1)).sum)
      + (1/4)))).toNat = 2 := by
    rw [hg]
    have harg : ((2:ℚ) * ((1/4) + ([(1:ℚ)/4].sum)
        + 0 * ((([[0]] : List (List Nat)).map (fun g => (g.length : ℚ) - 1)).sum)
        + (1/4))) = 3/2 := by
      simp
      norm_num
    rw [harg]
    have hround : round ((3:ℚ)/2) = 2 := by norm_num [round_eq]
    rw [hround]
    rfl
  intro hcontra
  rw [hL, hR] at hcontra
  exact absurd hcontra (by decide)

/-- Witness for C1 (amended) at a concrete degenerate input. -/
theorem claim1_witness :
    (create_progressive_frames [demoCoord] [(0:ℚ)] 1 0 0 0 1).toOption.map List.length
      = some (pyNat ((0:ℚ) * 1)
          + (([(0:ℚ)]).map (fun d => pyNat (d * 1))).sum
          + ((messageGroups 1 (List.length [demoCoord])).map
              (fun g => g.length - 1)).sum * pyNat ((0:ℚ) * 1)
          + pyNat ((0:ℚ) * 1)) :=
  claim1_frame_count [demoCoord] [(0:ℚ)] 1 0 0 0 1 rfl

end MakeMoney
